import Mathlib

/-!
Verification of the unified in-app-purchase abstraction layer
(`tauri-plugin-iap`): a shallow embedding of `src/models.rs`,
`src/error.rs`, `src/desktop.rs`, `src/mobile.rs` and `src/commands.rs`,
followed by theorems about the embedded definitions.

Modelling conventions:
* JSON values (`serde_json::Value`) are the inductive `Iap.Json`;
  JSON numbers (and Rust `f64` payloads) are modelled as exact rationals,
  which covers every finite double without floating-point artifacts.
* Fallible decoding (`serde_json::from_value` / derived `Deserialize`)
  is `Json → Except String α`, following serde's derived semantics:
  struct fields are looked up by their (camelCase-renamed) name, a
  missing or `null` field of `Option` type decodes to `none`, a missing
  field of any other type is an error.
* A Rust `panic!` reached through `.expect(msg)` is the outcome
  `JniOutcome.panicked msg`.
* Mobile-backend invocations (`PluginHandle::run_mobile_plugin`) are
  recorded as an `Invocation`: the string method name together with the
  serialized argument payload.
-/

namespace Iap

/-- A JSON value (`serde_json::Value`); numbers are exact rationals. -/
inductive Json where
  | null : Json
  | bool : Bool → Json
  | num : ℚ → Json
  | str : String → Json
  | arr : List Json → Json
  | obj : List (String × Json) → Json

/-- Top-level keys of a JSON object, in order; `[]` for non-objects. -/
def Json.topKeys : Json → List String
  | .obj fs => fs.map Prod.fst
  | _ => []

/-- Field lookup in a JSON object, first occurrence wins. -/
def Json.getField : Json → String → Option Json
  | .obj fs, k => fs.lookup k
  | _, _ => none

/-- Rust `models.rs`: `ProductDetails` (serde rename_all = camelCase). -/
structure ProductDetails where
  id : String
  title : String
  description : String
  price : String
  raw_price : ℚ
  currency_code : String
  currency_symbol : String
deriving DecidableEq

/-- Rust `models.rs`: `PurchaseVerificationData`. -/
structure PurchaseVerificationData where
  local_verification_data : String
  server_verification_data : String
  source : String
deriving DecidableEq

/-- Rust `models.rs`: `PurchaseStatus` (serde rename_all = lowercase). -/
inductive PurchaseStatus where
  | Pending
  | Purchased
  | Error
  | Restored
  | Canceled
deriving DecidableEq

/-- Rust `models.rs`: `IAPError`; `details` is an optional raw JSON value. -/
structure IAPError where
  code : String
  message : String
  details : Option Json

/-- Rust `models.rs`: `PurchaseDetails`. -/
structure PurchaseDetails where
  purchase_id : Option String
  product_id : String
  verification_data : PurchaseVerificationData
  transaction_date : Option String
  status : PurchaseStatus
  error : Option IAPError
  pending_complete_purchase : Bool

/-- Rust `models.rs`: `PurchaseParam`. -/
structure PurchaseParam where
  product_details : ProductDetails
  application_user_name : Option String
deriving DecidableEq

/-- Rust `models.rs`: `ProductDetailsResponse`. -/
structure ProductDetailsResponse where
  product_details : List ProductDetails
  not_found_ids : List String
  error : Option IAPError

/-! ### Serializers (derived `Serialize` with camelCase field renames) -/

/-- serde: `Option<String>` serializes as the string or `null`. -/
def encOptStr : Option String → Json
  | none => .null
  | some s => .str s

/-- serde: `Option<serde_json::Value>` serializes as the value or `null`. -/
def encOptJson : Option Json → Json
  | none => .null
  | some j => j

def encProductDetails (p : ProductDetails) : Json :=
  .obj [("id", .str p.id), ("title", .str p.title),
        ("description", .str p.description), ("price", .str p.price),
        ("rawPrice", .num p.raw_price),
        ("currencyCode", .str p.currency_code),
        ("currencySymbol", .str p.currency_symbol)]

def encPurchaseVerificationData (v : PurchaseVerificationData) : Json :=
  .obj [("localVerificationData", .str v.local_verification_data),
        ("serverVerificationData", .str v.server_verification_data),
        ("source", .str v.source)]

def encPurchaseStatus : PurchaseStatus → Json
  | .Pending => .str "pending"
  | .Purchased => .str "purchased"
  | .Error => .str "error"
  | .Restored => .str "restored"
  | .Canceled => .str "canceled"

def encIAPError (e : IAPError) : Json :=
  .obj [("code", .str e.code), ("message", .str e.message),
        ("details", encOptJson e.details)]

/-- serde: `Option<IAPError>` serializes as the error object or `null`. -/
def encOptIAPError : Option IAPError → Json
  | none => .null
  | some e => encIAPError e

def encPurchaseDetails (p : PurchaseDetails) : Json :=
  .obj [("purchaseId", encOptStr p.purchase_id),
        ("productId", .str p.product_id),
        ("verificationData", encPurchaseVerificationData p.verification_data),
        ("transactionDate", encOptStr p.transaction_date),
        ("status", encPurchaseStatus p.status),
        ("error", encOptIAPError p.error),
        ("pendingCompletePurchase", .bool p.pending_complete_purchase)]

def encPurchaseParam (p : PurchaseParam) : Json :=
  .obj [("productDetails", encProductDetails p.product_details),
        ("applicationUserName", encOptStr p.application_user_name)]

def encProductDetailsResponse (r : ProductDetailsResponse) : Json :=
  .obj [("productDetails", .arr (r.product_details.map encProductDetails)),
        ("notFoundIds", .arr (r.not_found_ids.map Json.str)),
        ("error", encOptIAPError r.error)]

/-! ### Deserializers (derived `Deserialize` semantics) -/

/-- Required string field. -/
def getStr (fs : List (String × Json)) (k : String) : Except String String :=
  match fs.lookup k with
  | some (.str s) => .ok s
  | some _ => .error ("invalid type for field " ++ k)
  | none => .error ("missing field " ++ k)

/-- Required number field. -/
def getNum (fs : List (String × Json)) (k : String) : Except String ℚ :=
  match fs.lookup k with
  | some (.num q) => .ok q
  | some _ => .error ("invalid type for field " ++ k)
  | none => .error ("missing field " ++ k)

/-- Required boolean field. -/
def getBool (fs : List (String × Json)) (k : String) : Except String Bool :=
  match fs.lookup k with
  | some (.bool b) => .ok b
  | some _ => .error ("invalid type for field " ++ k)
  | none => .error ("missing field " ++ k)

/-- Optional string field: missing or `null` decodes to `none`. -/
def getOptStr (fs : List (String × Json)) (k : String) :
    Except String (Option String) :=
  match fs.lookup k with
  | some (.str s) => .ok (some s)
  | some .null => .ok none
  | some _ => .error ("invalid type for field " ++ k)
  | none => .ok none

/-- Optional raw-JSON field: missing or `null` decodes to `none`
(serde's `Option<Value>` treats JSON `null` as `None`). -/
def getOptJson (fs : List (String × Json)) (k : String) :
    Except String (Option Json) :=
  match fs.lookup k with
  | some .null => .ok none
  | some j => .ok (some j)
  | none => .ok none

def decProductDetails (j : Json) : Except String ProductDetails :=
  match j with
  | .obj fs => do
      let id ← getStr fs "id"
      let title ← getStr fs "title"
      let description ← getStr fs "description"
      let price ← getStr fs "price"
      let rawPrice ← getNum fs "rawPrice"
      let currencyCode ← getStr fs "currencyCode"
      let currencySymbol ← getStr fs "currencySymbol"
      pure ⟨id, title, description, price, rawPrice, currencyCode,
            currencySymbol⟩
  | _ => .error "expected object for ProductDetails"

def decPurchaseVerificationData (j : Json) :
    Except String PurchaseVerificationData :=
  match j with
  | .obj fs => do
      let l ← getStr fs "localVerificationData"
      let s ← getStr fs "serverVerificationData"
      let src ← getStr fs "source"
      pure ⟨l, s, src⟩
  | _ => .error "expected object for PurchaseVerificationData"

def decPurchaseStatus (j : Json) : Except String PurchaseStatus :=
  match j with
  | .str "pending" => .ok .Pending
  | .str "purchased" => .ok .Purchased
  | .str "error" => .ok .Error
  | .str "restored" => .ok .Restored
  | .str "canceled" => .ok .Canceled
  | _ => .error "unknown PurchaseStatus"

def decIAPError (j : Json) : Except String IAPError :=
  match j with
  | .obj fs => do
      let code ← getStr fs "code"
      let message ← getStr fs "message"
      let details ← getOptJson fs "details"
      pure ⟨code, message, details⟩
  | _ => .error "expected object for IAPError"

/-- Optional `IAPError` field: missing or `null` decodes to `none`. -/
def getOptIAPError (fs : List (String × Json)) (k : String) :
    Except String (Option IAPError) :=
  match fs.lookup k with
  | some .null => .ok none
  | some j => do
      let e ← decIAPError j
      pure (some e)
  | none => .ok none

def decPurchaseDetails (j : Json) : Except String PurchaseDetails :=
  match j with
  | .obj fs => do
      let purchaseId ← getOptStr fs "purchaseId"
      let productId ← getStr fs "productId"
      let vd ←
        match fs.lookup "verificationData" with
        | some v => decPurchaseVerificationData v
        | none => .error "missing field verificationData"
      let transactionDate ← getOptStr fs "transactionDate"
      let status ←
        match fs.lookup "status" with
        | some v => decPurchaseStatus v
        | none => .error "missing field status"
      let err ← getOptIAPError fs "error"
      let pending ← getBool fs "pendingCompletePurchase"
      pure ⟨purchaseId, productId, vd, transactionDate, status, err, pending⟩
  | _ => .error "expected object for PurchaseDetails"

def decPurchaseParam (j : Json) : Except String PurchaseParam :=
  match j with
  | .obj fs => do
      let pd ←
        match fs.lookup "productDetails" with
        | some v => decProductDetails v
        | none => .error "missing field productDetails"
      let aun ← getOptStr fs "applicationUserName"
      pure ⟨pd, aun⟩
  | _ => .error "expected object for PurchaseParam"

def decProductDetailsResponse (j : Json) :
    Except String ProductDetailsResponse :=
  match j with
  | .obj fs => do
      let pds ←
        match fs.lookup "productDetails" with
        | some (.arr xs) => xs.mapM decProductDetails
        | some _ => .error "invalid type for field productDetails"
        | none => .error "missing field productDetails"
      let nfs ←
        match fs.lookup "notFoundIds" with
        | some (.arr xs) =>
            xs.mapM fun x =>
              match x with
              | .str s => Except.ok s
              | _ => Except.error "invalid id"
        | some _ => .error "invalid type for field notFoundIds"
        | none => .error "missing field notFoundIds"
      let err ← getOptIAPError fs "error"
      pure ⟨pds, nfs, err⟩
  | _ => .error "expected object for ProductDetailsResponse"

/-! ### Error taxonomy (`error.rs`) -/

/-- Rust `error.rs`: the `Error` enum as declared (lines 5-52).
`Io` and `PluginInvoke` are `#[error(transparent)]`; their payload here is
the inner error's display string. Note: the enum declares NO
`ItemNotOwned` variant — `ItemNotOwned` exists only as a standalone
struct at the bottom of the file. -/
inductive Error where
  | Io : String → Error
  | PluginInvoke : String → Error
  | PlatformNotSupported : Error
  | BillingClientInitError : String → Error
  | ProductQueryError : String → Error
  | PurchaseError : String → Error
  | ConsumptionError : String → Error
  | RestoreError : String → Error
  | InvalidPurchaseToken : String → Error
  | NetworkError : String → Error
  | UserCancelled : Error
  | ItemAlreadyOwned : Error
  | ServiceDisconnected : Error
  | FeatureNotSupported : String → Error
  | InternalError : String → Error
deriving DecidableEq

/-- The Rust variant name of each declared `Error` value. -/
def Error.kindName : Error → String
  | .Io _ => "Io"
  | .PluginInvoke _ => "PluginInvoke"
  | .PlatformNotSupported => "PlatformNotSupported"
  | .BillingClientInitError _ => "BillingClientInitError"
  | .ProductQueryError _ => "ProductQueryError"
  | .PurchaseError _ => "PurchaseError"
  | .ConsumptionError _ => "ConsumptionError"
  | .RestoreError _ => "RestoreError"
  | .InvalidPurchaseToken _ => "InvalidPurchaseToken"
  | .NetworkError _ => "NetworkError"
  | .UserCancelled => "UserCancelled"
  | .ItemAlreadyOwned => "ItemAlreadyOwned"
  | .ServiceDisconnected => "ServiceDisconnected"
  | .FeatureNotSupported _ => "FeatureNotSupported"
  | .InternalError _ => "InternalError"

/-- The thiserror `Display` message of each `Error` value
(`#[error("...")]` templates; transparent variants display the inner
error). This is what `self.to_string()` produces. -/
def Error.toMessage : Error → String
  | .Io m => m
  | .PluginInvoke m => m
  | .PlatformNotSupported => "In-app purchases are not supported on this platform"
  | .BillingClientInitError m => "Failed to initialize billing client: " ++ m
  | .ProductQueryError m => "Product details query failed: " ++ m
  | .PurchaseError m => "Purchase flow failed: " ++ m
  | .ConsumptionError m => "Failed to consume purchase: " ++ m
  | .RestoreError m => "Purchase restoration failed: " ++ m
  | .InvalidPurchaseToken m => "Invalid purchase token or receipt: " ++ m
  | .NetworkError m => "Network error during billing operation: " ++ m
  | .UserCancelled => "User cancelled the purchase"
  | .ItemAlreadyOwned => "Item already owned"
  | .ServiceDisconnected => "Service disconnected"
  | .FeatureNotSupported m => "Feature not supported: " ++ m
  | .InternalError m => "Internal billing error: " ++ m

/-- Rust `error.rs` lines 54-61: `impl Serialize for Error` serializes every
error as one JSON string, `serializer.serialize_str(self.to_string())`. -/
def serializeError (e : Error) : Json :=
  .str (Error.toMessage e)

/-- The error kinds the android translation `Error::from_response_code`
textually constructs (`error.rs` lines 63-87). The source writes
`Error::ItemNotOwned(...)` in the arm for code 5, but the declared
`Error` enum has no such variant (it is a standalone struct with display
template `Item not owned: {0}`); this inductive therefore lists the
constructors exactly as the match arms name them, so the translation's
behavior can be stated while the enum mismatch is analyzed separately. -/
inductive RespError where
  | UserCancelled : RespError
  | ServiceDisconnected : RespError
  | BillingClientInitError : String → RespError
  | ItemAlreadyOwned : RespError
  | ItemNotOwned : String → RespError
  | NetworkError : String → RespError
  | FeatureNotSupported : String → RespError
  | InternalError : String → RespError
deriving DecidableEq

/-- The Rust variant name each `RespError` value was constructed under. -/
def RespError.kindName : RespError → String
  | .UserCancelled => "UserCancelled"
  | .ServiceDisconnected => "ServiceDisconnected"
  | .BillingClientInitError _ => "BillingClientInitError"
  | .ItemAlreadyOwned => "ItemAlreadyOwned"
  | .ItemNotOwned _ => "ItemNotOwned"
  | .NetworkError _ => "NetworkError"
  | .FeatureNotSupported _ => "FeatureNotSupported"
  | .InternalError _ => "InternalError"

/-- Rust `error.rs` lines 63-87: `Error::from_response_code(code, message)`,
translating a native billing response code plus optional native message.
The native `i32` code is modelled as `Int`. -/
def from_response_code (code : Int) (message : Option String) : RespError :=
  match code with
  | 0 => .InternalError (message.getD ("Unknown error code: " ++ toString code))
  | 1 => .UserCancelled
  | 2 => .ServiceDisconnected
  | 3 => .BillingClientInitError (message.getD "Billing unavailable")
  | 4 => .ItemAlreadyOwned
  | 5 => .ItemNotOwned (message.getD "Item not owned")
  | 6 => .NetworkError (message.getD "Network error")
  | 7 => .FeatureNotSupported (message.getD "Feature not supported")
  | _ => .InternalError (message.getD ("Unknown error code: " ++ toString code))

/-- Check that `needle` is an initial segment of `hay` (character lists). -/
def charsStartWith : List Char → List Char → Bool
  | [], _ => true
  | _ :: _, [] => false
  | c :: cs, d :: ds => c == d && charsStartWith cs ds

/-- Check that `needle` occurs as a contiguous segment of `hay`. -/
def charsContain (hay needle : List Char) : Bool :=
  charsStartWith needle hay ||
    match hay with
    | [] => false
    | _ :: t => charsContain t needle

/-- Substring test used to state "the payload carries the raw code":
`strContains hay needle` is true when `needle` occurs in `hay`. -/
def strContains (hay needle : String) : Bool :=
  charsContain hay.data needle.data

/-! ### Backend operations -/

/-- One call to a native backend collaborator: the string-keyed method
name passed to `run_mobile_plugin`, with its serialized payload. -/
structure Invocation where
  name : String
  payload : Json

/-! Rust `desktop.rs`: every operation returns `Err(Error::PlatformNotSupported)`
and its body makes no native invocation; each operation is modelled as its
result paired with the (empty) list of native invocations it performs. -/

def desktopInit : Except Error Unit × List Invocation :=
  (.error .PlatformNotSupported, [])

def desktopIsAvailable : Except Error Bool × List Invocation :=
  (.error .PlatformNotSupported, [])

def desktopQueryProductDetails (_product_ids : List String) :
    Except Error ProductDetailsResponse × List Invocation :=
  (.error .PlatformNotSupported, [])

def desktopBuyNonConsumable (_purchase_param : PurchaseParam) :
    Except Error Bool × List Invocation :=
  (.error .PlatformNotSupported, [])

def desktopBuyConsumable (_purchase_param : PurchaseParam)
    (_auto_consume : Bool) : Except Error Bool × List Invocation :=
  (.error .PlatformNotSupported, [])

def desktopCompletePurchase (_purchase : PurchaseDetails) :
    Except Error Unit × List Invocation :=
  (.error .PlatformNotSupported, [])

def desktopRestorePurchases (_application_user_name : Option String) :
    Except Error Unit × List Invocation :=
  (.error .PlatformNotSupported, [])

def desktopCountryCode : Except Error String × List Invocation :=
  (.error .PlatformNotSupported, [])

/-! Rust `mobile.rs`: each operation calls `run_mobile_plugin` with a string
method name and a serialized payload; the invocation issued is modelled.
The unit argument `()` serializes to JSON `null`. -/

def mobileInit : Invocation :=
  ⟨"initialize", .null⟩

def mobileIsAvailable : Invocation :=
  ⟨"is_available", .null⟩

def mobileQueryProductDetails (product_ids : List String) : Invocation :=
  ⟨"query_product_details",
   .obj [("productIds", .arr (product_ids.map Json.str))]⟩

def mobileBuyNonConsumable (purchase_param : PurchaseParam) : Invocation :=
  ⟨"buy_non_consumable", encPurchaseParam purchase_param⟩

def mobileBuyConsumable (purchase_param : PurchaseParam)
    (auto_consume : Bool) : Invocation :=
  ⟨"buy_consumable",
   .obj [("purchaseParam", encPurchaseParam purchase_param),
         ("autoConsume", .bool auto_consume)]⟩

def mobileCompletePurchase (purchase : PurchaseDetails) : Invocation :=
  ⟨"complete_purchase", encPurchaseDetails purchase⟩

def mobileRestorePurchases (application_user_name : Option String) :
    Invocation :=
  ⟨"restore_purchases",
   .obj [("applicationUserName", encOptStr application_user_name)]⟩

def mobileCountryCode : Invocation :=
  ⟨"country_code", .null⟩

/-- Rust `commands.rs` lines 36-43: the `buy_consumable` inbound command takes
`auto_consume : Option<bool>` and calls the backend with
`auto_consume.unwrap_or(false)`; the invocation reaching the mobile
backend is modelled. -/
def commandBuyConsumable (purchase_param : PurchaseParam)
    (auto_consume : Option Bool) : Invocation :=
  mobileBuyConsumable purchase_param (auto_consume.getD false)

/-! ### JNI entry points (`mobile.rs`, `mod android`) -/

/-- Outcome of a JNI callback body: normal return, or a Rust panic
raised through `.expect(msg)`. -/
inductive JniOutcome where
  | ok : JniOutcome
  | panicked : String → JniOutcome
deriving DecidableEq

/-- Deserialization of `Vec<PurchaseDetails>` of a parsed JSON payload. -/
def decPurchaseDetailsList (j : Json) : Except String (List PurchaseDetails) :=
  match j with
  | .arr xs => xs.mapM decPurchaseDetails
  | _ => .error "expected array of PurchaseDetails"

/-- Rust `mobile.rs` lines 142-158, `Java_com_plugin_iap_IapPlugin_onPurchaseUpdate`:
the extracted payload string, parsed to JSON, is deserialized with
`serde_json::from_str(..).expect("Failed to parse purchase details")`;
on decode failure the `expect` panics, on success the body does nothing
further (the event emission is an unimplemented comment). The argument is
the parsed JSON value of the payload string. -/
def onPurchaseUpdate (payload : Json) : JniOutcome :=
  match decPurchaseDetailsList payload with
  | .ok _ => .ok
  | .error _ => .panicked "Failed to parse purchase details"

/-- Rust `mobile.rs` lines 160-173, `Java_com_plugin_iap_IapPlugin_handleError`:
the payload string is extracted into a local and the body then does
nothing: no decoding, no event, no state change, no panic. Modelled over
an arbitrary plugin-state type `σ`: the call returns the state unchanged,
an empty list of emitted events, and a normal outcome. -/
def handleError {σ : Type} (_error_str : String) (st : σ) :
    σ × List Json × JniOutcome :=
  (st, [], .ok)

/-! ### Spec-modelled native catalog query -/

/-- Modelled from the spec: the native (Kotlin/Swift) backend
implementation of `query_product_details` is not under `src/`; following
§4.1 ("missing ids are reported via `notFoundIds`, not as an error") and
§3 ("union of both may be a strict subset of requested ids if the backend
silently drops duplicates"), the native catalog is a partial map from
product id to details, duplicates in the request are dropped, found ids
yield their details and the rest are reported in `notFoundIds`. -/
def nativeQueryProductDetails (store : String → Option ProductDetails)
    (ids : List String) : ProductDetailsResponse :=
  let uniq := ids.dedup
  { product_details := uniq.filterMap store
    not_found_ids := uniq.filter (fun i => (store i).isNone)
    error := none }

/-! ### Auxiliary definitions used by the theorems -/

/-- Side condition for lossless decoding of `IAPError.details`: a present
`details` value must not be the JSON `null` (serde collapses a serialized
`Some(Value::Null)` back to `None`). -/
def detailsOk : Option Json → Bool
  | some .null => false
  | _ => true

/-- Side condition lifted to an optional `IAPError` field. -/
def optErrOk : Option IAPError → Bool
  | some e => detailsOk e.details
  | none => true

/-- The native response codes with a dedicated arm in
`from_response_code` (code 0 also has a dedicated arm, whose result
coincides with the fallback arm). -/
def knownResponseCodes : List Int := [0, 1, 2, 3, 4, 5, 6, 7]

/-- A concrete catalog entry used to instantiate witnesses. -/
def sampleDetails : ProductDetails :=
  ⟨"p1", "Title", "Desc", "$1.00", 1, "USD", "$"⟩

/-- A concrete one-product native catalog used to instantiate witnesses. -/
def sampleStore : String → Option ProductDetails :=
  fun i => if i = "p1" then some sampleDetails else none

/-! ### Round-trip helper lemmas -/

theorem dec_enc_pd (p : ProductDetails) :
    decProductDetails (encProductDetails p) = .ok p := rfl

theorem dec_enc_pvd (v : PurchaseVerificationData) :
    decPurchaseVerificationData (encPurchaseVerificationData v) = .ok v := rfl

theorem dec_enc_status (s : PurchaseStatus) :
    decPurchaseStatus (encPurchaseStatus s) = .ok s := by
  cases s <;> rfl

theorem dec_enc_iap (e : IAPError) (h : detailsOk e.details = true) :
    decIAPError (encIAPError e) = .ok e := by
  obtain ⟨c, m, d⟩ := e
  cases d with
  | none => rfl
  | some j =>
    cases j with
    | null => exact Bool.noConfusion h
    | bool b => rfl
    | num q => rfl
    | str s => rfl
    | arr xs => rfl
    | obj fs => rfl

theorem dec_enc_purchase (p : PurchaseDetails) (h : optErrOk p.error = true) :
    decPurchaseDetails (encPurchaseDetails p) = .ok p := by
  obtain ⟨pid, prod, vd, td, st, err, pend⟩ := p
  cases err with
  | none => cases pid <;> cases td <;> cases st <;> rfl
  | some e =>
    obtain ⟨c, m, d⟩ := e
    cases d with
    | none => cases pid <;> cases td <;> cases st <;> rfl
    | some j =>
      cases j with
      | null => exact Bool.noConfusion h
      | bool b => cases pid <;> cases td <;> cases st <;> rfl
      | num q => cases pid <;> cases td <;> cases st <;> rfl
      | str s => cases pid <;> cases td <;> cases st <;> rfl
      | arr xs => cases pid <;> cases td <;> cases st <;> rfl
      | obj fs => cases pid <;> cases td <;> cases st <;> rfl

theorem dec_enc_param (p : PurchaseParam) :
    decPurchaseParam (encPurchaseParam p) = .ok p := by
  obtain ⟨pd, aun⟩ := p
  cases aun <;> rfl

theorem mapM_dec_enc_pd (l : List ProductDetails) :
    (l.map encProductDetails).mapM decProductDetails = Except.ok l := by
  induction l with
  | nil => rfl
  | cons x xs ih =>
    rw [List.map_cons, List.mapM_cons, dec_enc_pd, ih]
    rfl

theorem mapM_dec_str (l : List String) :
    (l.map Json.str).mapM (fun x =>
      match x with
      | .str s => Except.ok s
      | _ => Except.error "invalid id") = Except.ok l := by
  induction l with
  | nil => rfl
  | cons x xs ih =>
    rw [List.map_cons, List.mapM_cons, ih]
    rfl

theorem dec_enc_response (r : ProductDetailsResponse)
    (h : optErrOk r.error = true) :
    decProductDetailsResponse (encProductDetailsResponse r) = .ok r := by
  obtain ⟨pds, nfs, err⟩ := r
  cases err with
  | none =>
    have e1 : decProductDetailsResponse
        (encProductDetailsResponse ⟨pds, nfs, none⟩) =
        (do
          let a ← (pds.map encProductDetails).mapM decProductDetails
          let b ← (nfs.map Json.str).mapM fun x =>
            match x with
            | .str s => Except.ok s
            | _ => Except.error "invalid id"
          pure (⟨a, b, none⟩ : ProductDetailsResponse)) := rfl
    rw [e1, mapM_dec_enc_pd, mapM_dec_str]
    rfl
  | some e =>
    have e1 : decProductDetailsResponse
        (encProductDetailsResponse ⟨pds, nfs, some e⟩) =
        (do
          let a ← (pds.map encProductDetails).mapM decProductDetails
          let b ← (nfs.map Json.str).mapM fun x =>
            match x with
            | .str s => Except.ok s
            | _ => Except.error "invalid id"
          let er ← (do
            let x ← decIAPError (encIAPError e)
            pure (some x))
          pure (⟨a, b, er⟩ : ProductDetailsResponse)) := rfl
    rw [e1, mapM_dec_enc_pd, mapM_dec_str, dec_enc_iap e h]
    rfl

/-! ### Claim theorems -/

/-- C1: on the unsupported-platform (desktop) configuration, every one of
the eight backend operations, for every input, returns exactly
`Error::PlatformNotSupported` and performs no native invocation. -/
theorem C1_desktop_ops_platform_not_supported :
    desktopInit = (.error .PlatformNotSupported, []) ∧
    desktopIsAvailable = (.error .PlatformNotSupported, []) ∧
    (∀ ids, desktopQueryProductDetails ids = (.error .PlatformNotSupported, [])) ∧
    (∀ p, desktopBuyNonConsumable p = (.error .PlatformNotSupported, [])) ∧
    (∀ p b, desktopBuyConsumable p b = (.error .PlatformNotSupported, [])) ∧
    (∀ pd, desktopCompletePurchase pd = (.error .PlatformNotSupported, [])) ∧
    (∀ u, desktopRestorePurchases u = (.error .PlatformNotSupported, [])) ∧
    desktopCountryCode = (.error .PlatformNotSupported, []) :=
  ⟨rfl, rfl, fun _ => rfl, fun _ => rfl, fun _ _ => rfl, fun _ => rfl,
   fun _ => rfl, rfl⟩

/-- C2 counterexample: the claim says every unrecognized code maps to
`InternalError` whose payload carries the raw numeric code. At code 100
with a native message present, the payload is the message verbatim and
the digits of the code appear nowhere in it: the raw code is lost. -/
theorem C2_counterexample_unknown_code_with_message_drops_code :
    from_response_code 100 (some "billing service crashed") =
      .InternalError "billing service crashed" ∧
    strContains "billing service crashed" (toString (100 : Int)) = false :=
  ⟨rfl, rfl⟩

/-- C2 (amended): the translation is total — every code and optional
message yields a defined kind; codes with a dedicated arm map per the
fixed table; any code outside the table maps to `InternalError`, whose
payload embeds the raw numeric code when no native message is present
and is the native message verbatim otherwise. -/
theorem C2_amended_translation_total :
    ∀ (code : Int) (message : Option String),
      (code ∉ knownResponseCodes →
        from_response_code code message =
          .InternalError (message.getD ("Unknown error code: " ++ toString code))) ∧
      from_response_code 1 message = .UserCancelled ∧
      from_response_code 2 message = .ServiceDisconnected ∧
      from_response_code 3 message =
        .BillingClientInitError (message.getD "Billing unavailable") ∧
      from_response_code 4 message = .ItemAlreadyOwned ∧
      from_response_code 5 message = .ItemNotOwned (message.getD "Item not owned") ∧
      from_response_code 6 message = .NetworkError (message.getD "Network error") ∧
      from_response_code 7 message =
        .FeatureNotSupported (message.getD "Feature not supported") ∧
      from_response_code 0 message =
        .InternalError (message.getD ("Unknown error code: " ++ toString (0 : Int))) := by
  intro code message
  refine ⟨fun h => ?_, rfl, rfl, rfl, rfl, rfl, rfl, rfl, rfl⟩
  unfold from_response_code
  split <;> simp_all [knownResponseCodes]

/-- C2 witness: the amended theorem applied at code 100, once with no
message and once with a message. -/
theorem C2_amended_translation_total_witness :
    from_response_code 100 none = .InternalError "Unknown error code: 100" ∧
    from_response_code 100 (some "billing service crashed") =
      .InternalError "billing service crashed" := by
  constructor
  · exact (C2_amended_translation_total 100 none).1 (by decide)
  · exact (C2_amended_translation_total 100 (some "billing service crashed")).1
      (by decide)

/-- C3: the claim says malformed purchase-update payloads are logged and
dropped and the process never crashes. The code instead calls
`.expect("Failed to parse purchase details")`, which panics on any
payload that is not a JSON list of `PurchaseDetails` — here the payload
`5` (a valid JSON number) makes the callback panic, while a well-formed
empty list returns normally. -/
theorem C3_malformed_purchase_update_panics :
    onPurchaseUpdate (Json.num 5) =
      JniOutcome.panicked "Failed to parse purchase details" ∧
    onPurchaseUpdate (Json.arr []) = JniOutcome.ok :=
  ⟨rfl, rfl⟩

/-- C4: the claim says the normalized error type contains the kind
`ItemNotOwned`. The translation of native code 5 is constructed under
the variant name `ItemNotOwned`, but no value of the declared `Error`
enum has that kind — `ItemNotOwned` exists only as a standalone struct,
so the enum cannot represent the code-5 translation the source writes. -/
theorem C4_item_not_owned_not_in_error_enum :
    RespError.kindName (from_response_code 5 none) = "ItemNotOwned" ∧
    (∀ e : Error, (Error.kindName e == "ItemNotOwned") = false) := by
  refine ⟨rfl, fun e => ?_⟩
  cases e <;> rfl

/-- C5: every mobile-backend operation invokes its native collaborator
under exactly the listed string invocation name, and every structured
payload it sends is keyed by the camelCase field names of the data model
(`productIds`, `purchaseParam`, `autoConsume`, `applicationUserName`,
and the camelCase-renamed struct fields). -/
theorem C5_mobile_invocation_names_and_keys :
    (mobileInit.name = "initialize" ∧ mobileInit.payload = Json.null) ∧
    (mobileIsAvailable.name = "is_available" ∧
      mobileIsAvailable.payload = Json.null) ∧
    (∀ ids, (mobileQueryProductDetails ids).name = "query_product_details" ∧
      (mobileQueryProductDetails ids).payload.topKeys = ["productIds"]) ∧
    (∀ p, (mobileBuyNonConsumable p).name = "buy_non_consumable" ∧
      (mobileBuyNonConsumable p).payload.topKeys =
        ["productDetails", "applicationUserName"]) ∧
    (∀ p b, (mobileBuyConsumable p b).name = "buy_consumable" ∧
      (mobileBuyConsumable p b).payload.topKeys =
        ["purchaseParam", "autoConsume"]) ∧
    (∀ pd, (mobileCompletePurchase pd).name = "complete_purchase" ∧
      (mobileCompletePurchase pd).payload.topKeys =
        ["purchaseId", "productId", "verificationData", "transactionDate",
         "status", "error", "pendingCompletePurchase"]) ∧
    (∀ u, (mobileRestorePurchases u).name = "restore_purchases" ∧
      (mobileRestorePurchases u).payload.topKeys = ["applicationUserName"]) ∧
    (mobileCountryCode.name = "country_code" ∧
      mobileCountryCode.payload = Json.null) :=
  ⟨⟨rfl, rfl⟩, ⟨rfl, rfl⟩, fun _ => ⟨rfl, rfl⟩, fun _ => ⟨rfl, rfl⟩,
   fun _ _ => ⟨rfl, rfl⟩, fun _ => ⟨rfl, rfl⟩, fun _ => ⟨rfl, rfl⟩,
   ⟨rfl, rfl⟩⟩

/-- C6: the inbound `buy_consumable` command dispatches with
`auto_consume = false` when the argument is absent, and passes a present
value unchanged; in every case the `autoConsume` payload field carries
`auto_consume.unwrap_or(false)`. -/
theorem C6_buy_consumable_default_auto_consume :
    (∀ p, commandBuyConsumable p none = mobileBuyConsumable p false) ∧
    (∀ p b, commandBuyConsumable p (some b) = mobileBuyConsumable p b) ∧
    (∀ p a, (commandBuyConsumable p a).payload.getField "autoConsume" =
      some (Json.bool (a.getD false))) :=
  ⟨fun _ => rfl, fun _ _ => rfl, fun _ _ => rfl⟩

/-- C7 counterexample: serializing `IAPError` with `details = Some(Null)`
writes `details: null`, which deserializes back to `None` — the
round-trip is not the identity on that value. -/
theorem C7_counterexample_some_null_details_not_roundtrip :
    decIAPError (encIAPError ⟨"E1", "msg", some Json.null⟩) =
      Except.ok ⟨"E1", "msg", none⟩ ∧
    decIAPError (encIAPError ⟨"E1", "msg", some Json.null⟩) ≠
      Except.ok ⟨"E1", "msg", some Json.null⟩ := by
  refine ⟨rfl, fun h => ?_⟩
  injection h with h1
  injection h1 with hc hm hd
  exact Option.noConfusion hd

/-- C7 (amended): serialize-then-deserialize is the identity on every
value of every data-model type, provided any present `details` payload
of an embedded `IAPError` is not the JSON `null` value (serde collapses
a serialized `Some(Value::Null)` to `None`). -/
theorem C7_amended_roundtrip :
    (∀ p : ProductDetails, decProductDetails (encProductDetails p) = .ok p) ∧
    (∀ v : PurchaseVerificationData,
      decPurchaseVerificationData (encPurchaseVerificationData v) = .ok v) ∧
    (∀ s : PurchaseStatus, decPurchaseStatus (encPurchaseStatus s) = .ok s) ∧
    (∀ e : IAPError, detailsOk e.details = true →
      decIAPError (encIAPError e) = .ok e) ∧
    (∀ p : PurchaseDetails, optErrOk p.error = true →
      decPurchaseDetails (encPurchaseDetails p) = .ok p) ∧
    (∀ p : PurchaseParam, decPurchaseParam (encPurchaseParam p) = .ok p) ∧
    (∀ r : ProductDetailsResponse, optErrOk r.error = true →
      decProductDetailsResponse (encProductDetailsResponse r) = .ok r) :=
  ⟨dec_enc_pd, dec_enc_pvd, dec_enc_status, dec_enc_iap, dec_enc_purchase,
   dec_enc_param, dec_enc_response⟩

/-- C7 witness: the amended round-trip applied at concrete values of the
guarded types, side conditions discharged by evaluation. -/
theorem C7_amended_roundtrip_witness :
    decIAPError (encIAPError ⟨"E1", "query failed", some (Json.str "extra")⟩) =
      Except.ok ⟨"E1", "query failed", some (Json.str "extra")⟩ ∧
    decPurchaseDetails (encPurchaseDetails
      ⟨some "tx1", "p1", ⟨"lv", "sv", "google"⟩, some "2024-01-01",
       .Purchased, none, true⟩) =
      Except.ok ⟨some "tx1", "p1", ⟨"lv", "sv", "google"⟩, some "2024-01-01",
       .Purchased, none, true⟩ ∧
    decProductDetailsResponse (encProductDetailsResponse
      ⟨[⟨"p1", "T", "D", "$1.00", 1, "USD", "$"⟩], ["p2"], none⟩) =
      Except.ok ⟨[⟨"p1", "T", "D", "$1.00", 1, "USD", "$"⟩], ["p2"], none⟩ := by
  refine ⟨?_, ?_, ?_⟩
  · exact C7_amended_roundtrip.2.2.2.1 _ rfl
  · exact C7_amended_roundtrip.2.2.2.2.1 _ rfl
  · exact C7_amended_roundtrip.2.2.2.2.2.2 _ rfl

/-- C8: every error value serializes to exactly one JSON string, equal to
that kind's human-readable display message; the per-kind display
templates are listed explicitly. -/
theorem C8_error_serializes_to_single_display_string :
    (∀ e : Error, serializeError e = Json.str (Error.toMessage e)) ∧
    Error.toMessage .PlatformNotSupported =
      "In-app purchases are not supported on this platform" ∧
    (∀ m, Error.toMessage (.BillingClientInitError m) =
      "Failed to initialize billing client: " ++ m) ∧
    (∀ m, Error.toMessage (.ProductQueryError m) =
      "Product details query failed: " ++ m) ∧
    (∀ m, Error.toMessage (.PurchaseError m) = "Purchase flow failed: " ++ m) ∧
    (∀ m, Error.toMessage (.ConsumptionError m) =
      "Failed to consume purchase: " ++ m) ∧
    (∀ m, Error.toMessage (.RestoreError m) =
      "Purchase restoration failed: " ++ m) ∧
    (∀ m, Error.toMessage (.InvalidPurchaseToken m) =
      "Invalid purchase token or receipt: " ++ m) ∧
    (∀ m, Error.toMessage (.NetworkError m) =
      "Network error during billing operation: " ++ m) ∧
    Error.toMessage .UserCancelled = "User cancelled the purchase" ∧
    Error.toMessage .ItemAlreadyOwned = "Item already owned" ∧
    Error.toMessage .ServiceDisconnected = "Service disconnected" ∧
    (∀ m, Error.toMessage (.FeatureNotSupported m) =
      "Feature not supported: " ++ m) ∧
    (∀ m, Error.toMessage (.InternalError m) = "Internal billing error: " ++ m) ∧
    (∀ m, Error.toMessage (.Io m) = m) ∧
    (∀ m, Error.toMessage (.PluginInvoke m) = m) :=
  ⟨fun _ => rfl, rfl, fun _ => rfl, fun _ => rfl, fun _ => rfl, fun _ => rfl,
   fun _ => rfl, fun _ => rfl, fun _ => rfl, rfl, rfl, rfl, fun _ => rfl,
   fun _ => rfl, fun _ => rfl, fun _ => rfl⟩

/-- C9: for every native catalog whose entries carry their own key as id
and every requested id list, the response's found ids are disjoint from
`notFoundIds` and both are drawn from the requested ids. The native
query is spec-modelled (`nativeQueryProductDetails`), as the native
backend implementation is not part of the Rust sources. -/
theorem C9_query_response_disjoint_and_subset :
    ∀ (store : String → Option ProductDetails) (ids : List String),
      (∀ i d, store i = some d → d.id = i) →
      List.Disjoint
        ((nativeQueryProductDetails store ids).product_details.map
          ProductDetails.id)
        (nativeQueryProductDetails store ids).not_found_ids ∧
      ((nativeQueryProductDetails store ids).product_details.map
        ProductDetails.id) ⊆ ids ∧
      (nativeQueryProductDetails store ids).not_found_ids ⊆ ids := by
  intro store ids hid
  refine ⟨?_, ?_, ?_⟩
  · intro x hx hmem
    rw [nativeQueryProductDetails] at hx hmem
    simp only [List.mem_map, List.mem_filterMap] at hx
    obtain ⟨d, ⟨i, hi, hsd⟩, hdx⟩ := hx
    have hdi : d.id = i := hid i d hsd
    have hxi : x = i := by rw [← hdx, hdi]
    simp only [List.mem_filter] at hmem
    have hnone := hmem.2
    rw [hxi, hsd] at hnone
    simp at hnone
  · intro x hx
    rw [nativeQueryProductDetails] at hx
    simp only [List.mem_map, List.mem_filterMap] at hx
    obtain ⟨d, ⟨i, hi, hsd⟩, hdx⟩ := hx
    have hdi : d.id = i := hid i d hsd
    have hxi : x = i := by rw [← hdx, hdi]
    rw [hxi]
    exact List.mem_dedup.mp hi
  · intro x hx
    rw [nativeQueryProductDetails] at hx
    simp only [List.mem_filter] at hx
    exact List.mem_dedup.mp hx.1

/-- C9 witness: the invariant applied to the one-product sample catalog
and the request `["p1", "p2"]` (the spec's scenario: only `p1` exists). -/
theorem C9_query_response_disjoint_and_subset_witness :
    List.Disjoint
      ((nativeQueryProductDetails sampleStore ["p1", "p2"]).product_details.map
        ProductDetails.id)
      (nativeQueryProductDetails sampleStore ["p1", "p2"]).not_found_ids ∧
    ((nativeQueryProductDetails sampleStore ["p1", "p2"]).product_details.map
      ProductDetails.id) ⊆ ["p1", "p2"] ∧
    (nativeQueryProductDetails sampleStore ["p1", "p2"]).not_found_ids ⊆
      ["p1", "p2"] :=
  C9_query_response_disjoint_and_subset sampleStore ["p1", "p2"]
    (by
      intro i d hd
      by_cases hi : i = "p1"
      · rw [sampleStore, if_pos hi] at hd
        injection hd with hd'
        rw [← hd', hi]
        rfl
      · rw [sampleStore, if_neg hi] at hd
        exact Option.noConfusion hd)

/-- C10: the native error entry point extracts the payload string and
then does nothing further: no decoding against the data model, no emitted
event, no state change, no panic — for every payload and every plugin
state. -/
theorem C10_handle_error_no_decode_no_effect :
    ∀ (σ : Type) (st : σ) (error_str : String),
      handleError error_str st = (st, [], JniOutcome.ok) :=
  fun _ _ _ => rfl

end Iap
